import Mathlib

/-!
Verification of the crock terminal clock: a shallow embedding of the
time-bar state machine from src/clock.rs and src/clock/{timebar,uidata,ui}.rs.

Modelling conventions:
* A wall-clock instant (chrono DateTime of Local) is an integer number of
  milliseconds since a midnight-aligned epoch.  The tick loop samples at
  10 Hz, so sub-second precision matters for the reset guards; milliseconds
  are more than fine-grained enough.  DST and leap seconds are out of scope
  (the spec excludes timezone handling beyond the local clock).
* chrono's Duration::num_seconds (and num_minutes, num_hours) truncates the
  signed difference toward zero; numSeconds below reproduces that on the
  millisecond representation.
* f64 arithmetic appears only as `(since / len) clamped to [0,1]` and as the
  comparison `(r - 1).abs < 1e-6`.  FVal models an f64 result as either an
  exact rational or NaN; divClamp01 reproduces Rust's
  `(a / b).clamp(0.0, 1.0)` including the IEEE special cases `0.0/0.0 = NaN`
  (clamp of NaN is NaN), `x/0.0 = +inf` for `x > 0` (clamps to 1) and
  `-inf` for `x < 0` (clamps to 0).  Finite divisions are idealised as exact
  rationals.
* Rust code that unwraps `last_reset` is modelled by matching on the option;
  the none branch (which would abort the Rust process) is never reached in
  the states the theorems speak about, and the theorems carry the
  corresponding `last_reset = some _` hypotheses.
* The Rust code calls `Local::now()` several times inside one handler; the
  model passes a single `now` argument, as the spec itself treats a tick as
  one instant.
-/

/-- Result of an f64 computation: an exact rational value or NaN. -/
inductive FVal where
  | nan : FVal
  | val : ℚ → FVal
deriving DecidableEq

/-- Is this f64 result a number lying in the closed interval [0, 1]? -/
def FVal.inUnit01 : FVal → Bool
  | FVal.nan => false
  | FVal.val q => decide (0 ≤ q) && decide (q ≤ 1)

/-- Rust `(a / b).clamp(0.0, 1.0)` on f64, with the IEEE division special
cases made explicit and finite division idealised as exact rational
division. -/
def divClamp01 (a b : ℚ) : FVal :=
  if b = 0 then
    if a = 0 then FVal.nan
    else if 0 < a then FVal.val 1
    else FVal.val 0
  else FVal.val (max 0 (min 1 (a / b)))

/-- chrono `Duration::num_seconds` on a signed millisecond difference:
whole seconds, truncated toward zero. -/
def numSeconds (d : Int) : Int :=
  if 0 ≤ d then d / 1000 else -((-d) / 1000)

/-- chrono `Duration::num_minutes`: whole minutes, truncated toward zero. -/
def numMinutes (d : Int) : Int :=
  if 0 ≤ d then d / 60000 else -((-d) / 60000)

/-- chrono `Duration::num_hours`: whole hours, truncated toward zero. -/
def numHours (d : Int) : Int :=
  if 0 ≤ d then d / 3600000 else -((-d) / 3600000)

/-- chrono `second()`: the wall-clock second field of an instant, in [0, 59]. -/
def secondOf (t : Int) : Int := (t / 1000) % 60

/-- chrono `minute()`: the wall-clock minute field of an instant, in [0, 59]. -/
def minuteOf (t : Int) : Int := (t / 60000) % 60

/-- chrono `hour()`: the wall-clock hour field of an instant, in [0, 23]. -/
def hourOf (t : Int) : Int := (t / 3600000) % 24

/-- chrono `with_second(0)`: set the second field to 0, keeping all other
fields (including sub-second parts). -/
def with_second0 (t : Int) : Int := t - secondOf t * 1000

/-- chrono `with_minute(0)`: set the minute field to 0, keeping all other
fields (including seconds and sub-second parts). -/
def with_minute0 (t : Int) : Int := t - minuteOf t * 60000

/-- chrono `with_hour(0)`: set the hour field to 0, keeping all other fields
(including minutes, seconds and sub-second parts). -/
def with_hour0 (t : Int) : Int := t - hourOf t * 3600000

/-- The duration kinds of the time bar, from src/clock/timebar.rs
(TimeBarLength).  The carried parameter is in seconds. -/
inductive TimeBarLength where
  | Timer : TimeBarLength
  | Minute : TimeBarLength
  | Hour : TimeBarLength
  | Custom : Int → TimeBarLength
  | Countup : Int → TimeBarLength
  | Day : TimeBarLength
deriving DecidableEq

/-- TimeBarLength::as_secs from src/clock/timebar.rs lines 18-26. -/
def TimeBarLength.as_secs : TimeBarLength → Int
  | TimeBarLength.Minute => 60
  | TimeBarLength.Day => 24 * 60 * 60
  | TimeBarLength.Hour => 60 * 60
  | TimeBarLength.Timer => 1
  | TimeBarLength.Custom secs => secs
  | TimeBarLength.Countup secs => secs

/-- The Clock controller state from src/clock.rs: the configuration flags
parsed by clap plus the internal fields.  The custom and countdown flags
carry `std::time::Duration` values whose whole-second count (a u64) is what
`timebar_len` uses, hence `Option Nat`. -/
structure Clock where
  timer : Bool
  minute : Bool
  day : Bool
  hour : Bool
  custom : Option Nat
  countdown : Option Nat
  last_reset : Option Int
  did_notify : Bool
deriving DecidableEq

/-- A Clock as produced by clap argument parsing: the two `clap(skip)`
fields take their Default values (`None` and `false`). -/
def Clock.fromArgs (timer minute day hour : Bool)
    (custom countdown : Option Nat) : Clock :=
  { timer := timer, minute := minute, day := day, hour := hour,
    custom := custom, countdown := countdown,
    last_reset := none, did_notify := false }

/-- Clock::timebar_len from src/clock.rs lines 145-163: the first set flag
wins, in source order minute, day, hour, countdown, custom; all unset means
no time bar. -/
def Clock.timebar_len (c : Clock) : Option TimeBarLength :=
  if c.minute then some TimeBarLength.Minute
  else if c.day then some TimeBarLength.Day
  else if c.hour then some TimeBarLength.Hour
  else
    match c.countdown with
    | some secs => some (TimeBarLength.Countup (Int.ofNat secs))
    | none =>
      match c.custom with
      | some secs => some (TimeBarLength.Custom (Int.ofNat secs))
      | none => none

/-- Clock::timebar_ratio from src/clock.rs lines 167-177: short-circuits to
none when no kind is configured, otherwise divides the whole-second
difference since last_reset by the kind length and clamps to [0, 1]. -/
def Clock.timebar_ratio (c : Clock) (current_time : Int) : Option FVal :=
  match Clock.timebar_len c, c.last_reset with
  | some len, some lr =>
      some (divClamp01 (numSeconds (current_time - lr) : ℚ)
        ((TimeBarLength.as_secs len : Int) : ℚ))
  | _, _ => none

/-- Clock::maybe_reset_since_zero from src/clock.rs lines 179-213.  The
Timer arm follows the spec (Timer never resets); it is unreachable through
`timebar_len`, which never yields Timer. -/
def Clock.maybe_reset_since_zero (c : Clock) (now : Int) : Clock :=
  match Clock.timebar_len c, c.last_reset with
  | some len, some lr =>
    let since := now - lr
    match len with
    | TimeBarLength.Countup _ => c
    | TimeBarLength.Timer => c
    | TimeBarLength.Custom s =>
        if 1 ≤ numSeconds since ∧
            TimeBarLength.as_secs (TimeBarLength.Custom s) ≤ numSeconds since then
          { c with last_reset := some now }
        else c
    | TimeBarLength.Minute =>
        if 1 ≤ numSeconds since ∧ secondOf now = 0 then
          { c with last_reset := some now }
        else c
    | TimeBarLength.Hour =>
        if 1 ≤ numMinutes since ∧ minuteOf now = 0 then
          { c with last_reset := some now }
        else c
    | TimeBarLength.Day =>
        if 1 ≤ numHours since ∧ hourOf now = 0 then
          { c with last_reset := some now }
        else c
  | _, _ => c

/-- Clock::setup_last_reset from src/clock.rs lines 215-246: no kind means
last_reset stays untouched; Custom and Countup anchor at now; Minute zeroes
the second field; Hour zeroes only the minute field; Day zeroes only the
hour field.  The Timer arm follows the spec (anchor = now); it is
unreachable through `timebar_len`. -/
def Clock.setup_last_reset (c : Clock) (now : Int) : Clock :=
  match Clock.timebar_len c with
  | none => c
  | some len =>
    match len with
    | TimeBarLength.Custom _ => { c with last_reset := some now }
    | TimeBarLength.Countup _ => { c with last_reset := some now }
    | TimeBarLength.Timer => { c with last_reset := some now }
    | TimeBarLength.Minute => { c with last_reset := some (with_second0 now) }
    | TimeBarLength.Hour => { c with last_reset := some (with_minute0 now) }
    | TimeBarLength.Day => { c with last_reset := some (with_hour0 now) }

/-- Clock::setup from src/clock.rs lines 249-252: runs setup_last_reset and
always returns Ok, so the model returns the updated state. -/
def Clock.setup (c : Clock) (now : Int) : Clock :=
  Clock.setup_last_reset c now

/-- The guard `(ratio - 1.0).abs() < 0.000_001` from src/clock/ui.rs line
110.  A NaN ratio compares false. -/
def nearOne : FVal → Bool
  | FVal.nan => false
  | FVal.val q => decide (|q - 1| < 1 / 1000000)

/-- The notification portion of `timebarw` from src/clock/ui.rs lines
106-118 (same logic as Clock::ui, src/clock.rs lines 363-375): given the
displayed ratio, possibly fire the notify side effect and latch did_notify.
Returns the updated clock and whether notify was invoked. -/
def timebarw_notify (c : Clock) (r : FVal) : Clock × Bool :=
  match Clock.timebar_len c with
  | none => (c, false)
  | some len =>
    if !c.did_notify && nearOne r then
      match len with
      | TimeBarLength.Countup _ => ({ c with did_notify := true }, true)
      | _ => (c, false)
    else (c, false)

/-- The double-buffered render snapshot UiData from src/clock/uidata.rs.
The two-element Rust arrays are modelled as functions from the index; only
indices 0 and 1 are ever used (a Rust access at any other index would
abort, and reachable states keep data_idx in {0, 1}). -/
structure UiData where
  fdateA : Nat → String
  ftimeA : Nat → String
  ratioA : Nat → Option FVal
  data_idx : Nat

/-- UiData::update from src/clock/uidata.rs lines 13-22: XOR-toggle the
index, then overwrite the now-current slot with the new values. -/
def UiData.update (u : UiData) (fdate ftime : String) (r : Option FVal) :
    UiData :=
  let i := u.data_idx ^^^ 1
  { fdateA := Function.update u.fdateA i fdate,
    ftimeA := Function.update u.ftimeA i ftime,
    ratioA := Function.update u.ratioA i r,
    data_idx := i }

/-- UiData::changed from src/clock/uidata.rs lines 27-31: compares only the
date and time strings of the two slots; the stored ratios are ignored. -/
def UiData.changed (u : UiData) : Bool :=
  decide (u.fdateA 0 ≠ u.fdateA 1) || decide (u.ftimeA 0 ≠ u.ftimeA 1)

/-- UiData::fdate accessor: the current slot's date string. -/
def UiData.fdate (u : UiData) : String := u.fdateA u.data_idx

/-- UiData::ftime accessor: the current slot's time string. -/
def UiData.ftime (u : UiData) : String := u.ftimeA u.data_idx

/-- UiData::timebar_ratio accessor: the current slot's stored ratio. -/
def UiData.timebar_ratio (u : UiData) : Option FVal := u.ratioA u.data_idx

/-! Shared helper lemmas about the embedded operations. -/

theorem timebar_ratio_spec (c : Clock) (len : TimeBarLength) (lr t : Int)
    (hk : Clock.timebar_len c = some len) (hlr : c.last_reset = some lr) :
    Clock.timebar_ratio c t =
      some (divClamp01 (numSeconds (t - lr) : ℚ)
        ((TimeBarLength.as_secs len : Int) : ℚ)) := by
  simp [Clock.timebar_ratio, hk, hlr]

theorem divClamp01_val_mem (a b : ℚ) (h : ¬(b = 0 ∧ a = 0)) :
    ∃ q : ℚ, divClamp01 a b = FVal.val q ∧ 0 ≤ q ∧ q ≤ 1 := by
  unfold divClamp01
  by_cases hb : b = 0
  · have ha : ¬a = 0 := fun h0 => h ⟨hb, h0⟩
    rw [if_pos hb, if_neg ha]
    by_cases h0a : 0 < a
    · rw [if_pos h0a]
      exact ⟨1, rfl, by norm_num, le_refl 1⟩
    · rw [if_neg h0a]
      exact ⟨0, rfl, le_refl 0, by norm_num⟩
  · rw [if_neg hb]
    exact ⟨max 0 (min 1 (a / b)), rfl, le_max_left 0 _,
      max_le (by norm_num) (min_le_left 1 _)⟩

theorem divClamp01_nan (a b : ℚ) (hb : b = 0) (ha : a = 0) :
    divClamp01 a b = FVal.nan := by
  simp [divClamp01, hb, ha]

theorem clamp01_eq_one_iff (x : ℚ) : max 0 (min 1 x) = 1 ↔ 1 ≤ x := by
  constructor
  · intro h
    by_contra hx
    push_neg at hx
    rw [min_eq_right hx.le] at h
    rcases le_or_lt x 0 with h0 | h0
    · rw [max_eq_left h0] at h
      norm_num at h
    · rw [max_eq_right h0.le] at h
      exact absurd h (ne_of_lt hx)
  · intro h
    rw [min_eq_left h]
    simp

theorem divClamp01_eq_one_iff_of_pos (a b : ℚ) (hb : 0 < b) :
    divClamp01 a b = FVal.val 1 ↔ b ≤ a := by
  unfold divClamp01
  rw [if_neg (ne_of_gt hb)]
  simp only [FVal.val.injEq]
  rw [clamp01_eq_one_iff, one_le_div hb]

theorem divClamp01_zero_den_eq_one_iff (a : ℚ) :
    divClamp01 a 0 = FVal.val 1 ↔ 0 < a := by
  unfold divClamp01
  rw [if_pos rfl]
  by_cases ha : a = 0
  · simp [ha]
  · rw [if_neg ha]
    by_cases hpos : 0 < a
    · simp [hpos]
    · simp only [if_neg hpos, FVal.val.injEq]
      constructor
      · intro h; norm_num at h
      · intro h; exact absurd h hpos

theorem one_le_numSeconds_iff (d : Int) : 1 ≤ numSeconds d ↔ 1000 ≤ d := by
  unfold numSeconds
  split <;> omega

theorem numSeconds_ge_iff (k d : Int) (hk : 1 ≤ k) :
    k ≤ numSeconds d ↔ 1000 * k ≤ d := by
  unfold numSeconds
  split <;> omega

theorem numSeconds_le_numSeconds (d1 d2 : Int) (h1 : 0 ≤ d1) (h : d1 ≤ d2) :
    numSeconds d1 ≤ numSeconds d2 := by
  unfold numSeconds
  split <;> split <;> omega

theorem timebar_len_countup_nonneg (c : Clock) (n : Int)
    (hk : Clock.timebar_len c = some (TimeBarLength.Countup n)) : 0 ≤ n := by
  unfold Clock.timebar_len at hk
  repeat' split at hk
  all_goals simp_all
  omega

/-- C7: when no duration flag is set (minute, day, hour, custom, countdown
all unset, the timer flag being irrelevant), timebar_len is none and
timebar_ratio is none at every current_time, so no time bar is produced. -/
theorem C7_no_flag_no_ratio (c : Clock)
    (hm : c.minute = false) (hd : c.day = false) (hh : c.hour = false)
    (hc : c.custom = none) (hcd : c.countdown = none) :
    Clock.timebar_len c = none ∧
      ∀ t : Int, Clock.timebar_ratio c t = none := by
  have hlen : Clock.timebar_len c = none := by
    simp [Clock.timebar_len, hm, hd, hh, hc, hcd]
  exact ⟨hlen, fun t => by simp [Clock.timebar_ratio, hlen]⟩

theorem C7_no_flag_no_ratio_witness :
    Clock.timebar_len (Clock.fromArgs true false false false none none) = none ∧
      ∀ t : Int,
        Clock.timebar_ratio (Clock.fromArgs true false false false none none) t =
          none :=
  C7_no_flag_no_ratio (Clock.fromArgs true false false false none none)
    rfl rfl rfl rfl rfl

/-- C1 counterexample: with a countdown (Countup) parameter of 0 seconds,
anchored by setup at instant 0, the ratio at current_time 0 is the IEEE
result of clamping 0.0/0.0, which is NaN and not a value in [0, 1]; the
claim fails as stated on this input. -/
theorem C1_ratio_unit_interval_cex :
    Clock.timebar_ratio
        (Clock.setup (Clock.fromArgs false false false false none (some 0)) 0) 0 =
      some FVal.nan ∧
    FVal.inUnit01 FVal.nan = false := by
  constructor
  · simp [Clock.setup, Clock.setup_last_reset, Clock.timebar_len, Clock.fromArgs,
      Clock.timebar_ratio, numSeconds, divClamp01, TimeBarLength.as_secs]
  · rfl

/-- C1 amended: for every configured kind and every (current_time,
last_reset) pair, the ratio equals the whole-second difference divided by
the kind length clamped to [0, 1] and is a number in that interval, except
in the single case where the kind length is 0 seconds and the whole-second
difference is 0, where the f64 result is NaN. -/
theorem C1_ratio_unit_interval_amended (c : Clock) (len : TimeBarLength)
    (lr t : Int) (hk : Clock.timebar_len c = some len)
    (hlr : c.last_reset = some lr) :
    (¬(TimeBarLength.as_secs len = 0 ∧ numSeconds (t - lr) = 0) →
      ∃ q : ℚ, Clock.timebar_ratio c t = some (FVal.val q) ∧ 0 ≤ q ∧ q ≤ 1) ∧
    (TimeBarLength.as_secs len = 0 → numSeconds (t - lr) = 0 →
      Clock.timebar_ratio c t = some FVal.nan) := by
  have h := timebar_ratio_spec c len lr t hk hlr
  constructor
  · intro hnz
    have h2 : ¬(((TimeBarLength.as_secs len : Int) : ℚ) = 0 ∧
        ((numSeconds (t - lr) : Int) : ℚ) = 0) := by
      simpa using hnz
    obtain ⟨q, hq, h0, h1⟩ := divClamp01_val_mem _ _ h2
    rw [h, hq]
    exact ⟨q, rfl, h0, h1⟩
  · intro hz hs
    rw [h, divClamp01_nan]
    · exact_mod_cast congrArg (fun z : Int => ((z : ℚ))) hz
    · exact_mod_cast congrArg (fun z : Int => ((z : ℚ))) hs

theorem C1_ratio_unit_interval_amended_witness :
    ∃ q : ℚ, Clock.timebar_ratio
        { timer := false, minute := true, day := false, hour := false,
          custom := none, countdown := none,
          last_reset := some 0, did_notify := false } 30000 =
        some (FVal.val q) ∧ 0 ≤ q ∧ q ≤ 1 :=
  (C1_ratio_unit_interval_amended
    { timer := false, minute := true, day := false, hour := false,
      custom := none, countdown := none,
      last_reset := some 0, did_notify := false }
    TimeBarLength.Minute 0 30000 rfl rfl).1 (by decide)

/-- C2: for the Minute kind with the anchor at the start of a minute, the
ratio at anchor + 30 s is 1/2, at anchor + 59 s is 59/60, at the anchor
itself 0, and at anchor + 60 s or any later time exactly 1. -/
theorem C2_minute_boundary_values (c : Clock) (a : Int)
    (hm : c.minute = true) (hlr : c.last_reset = some a)
    (ha : a % 60000 = 0) :
    Clock.timebar_ratio c (a + 30000) = some (FVal.val (1 / 2)) ∧
    Clock.timebar_ratio c (a + 59000) = some (FVal.val (59 / 60)) ∧
    Clock.timebar_ratio c a = some (FVal.val 0) ∧
    ∀ t : Int, a + 60000 ≤ t →
      Clock.timebar_ratio c t = some (FVal.val 1) := by
  have hk : Clock.timebar_len c = some TimeBarLength.Minute := by
    simp [Clock.timebar_len, hm]
  refine ⟨?_, ?_, ?_, ?_⟩
  · have e : a + 30000 - a = 30000 := by ring
    rw [timebar_ratio_spec c TimeBarLength.Minute a (a + 30000) hk hlr, e]
    norm_num [numSeconds, divClamp01, TimeBarLength.as_secs, min_def, max_def]
  · have e : a + 59000 - a = 59000 := by ring
    rw [timebar_ratio_spec c TimeBarLength.Minute a (a + 59000) hk hlr, e]
    norm_num [numSeconds, divClamp01, TimeBarLength.as_secs, min_def, max_def]
  · have e : a - a = 0 := by ring
    rw [timebar_ratio_spec c TimeBarLength.Minute a a hk hlr, e]
    norm_num [numSeconds, divClamp01, TimeBarLength.as_secs, min_def, max_def]
  · intro t ht
    rw [timebar_ratio_spec c TimeBarLength.Minute a t hk hlr]
    simp only [TimeBarLength.as_secs]
    have h60 : (60 : Int) ≤ numSeconds (t - a) := by
      rw [numSeconds_ge_iff 60 (t - a) (by norm_num)]
      omega
    have hq : ((60 : Int) : ℚ) ≤ ((numSeconds (t - a) : Int) : ℚ) := by
      exact_mod_cast h60
    rw [(divClamp01_eq_one_iff_of_pos _ _ (by norm_num)).mpr hq]

theorem C2_minute_boundary_values_witness :
    Clock.timebar_ratio
        { timer := false, minute := true, day := false, hour := false,
          custom := none, countdown := none,
          last_reset := some 0, did_notify := false } 30000 =
      some (FVal.val (1 / 2)) := by
  have h := (C2_minute_boundary_values
    { timer := false, minute := true, day := false, hour := false,
      custom := none, countdown := none,
      last_reset := some 0, did_notify := false } 0 rfl rfl (by decide)).1
  simpa using h

/-- C3: for the Countup kind maybe_reset never modifies the state (so
last_reset in particular is unchanged for every invocation time), and once
the ratio has reached exactly 1 it stays 1 at every later time. -/
theorem C3_countup_latched (c : Clock) (n lr : Int)
    (hk : Clock.timebar_len c = some (TimeBarLength.Countup n))
    (hlr : c.last_reset = some lr) :
    (∀ now : Int, Clock.maybe_reset_since_zero c now = c) ∧
    (∀ t1 t2 : Int, t1 ≤ t2 →
      Clock.timebar_ratio c t1 = some (FVal.val 1) →
      Clock.timebar_ratio c t2 = some (FVal.val 1)) := by
  have hn : 0 ≤ n := timebar_len_countup_nonneg c n hk
  constructor
  · intro now
    simp [Clock.maybe_reset_since_zero, hk, hlr]
  · intro t1 t2 h12 h1
    rw [timebar_ratio_spec c (TimeBarLength.Countup n) lr t1 hk hlr] at h1
    rw [timebar_ratio_spec c (TimeBarLength.Countup n) lr t2 hk hlr]
    simp only [TimeBarLength.as_secs] at h1 ⊢
    simp only [Option.some.injEq] at h1 ⊢
    rcases eq_or_lt_of_le hn with hn0 | hnpos
    · have hz : ((n : Int) : ℚ) = 0 := by
        rw [← hn0]
        norm_num
      rw [hz] at h1 ⊢
      rw [divClamp01_zero_den_eq_one_iff] at h1
      have hs1 : 1 ≤ numSeconds (t1 - lr) := by
        exact_mod_cast h1
      rw [one_le_numSeconds_iff] at hs1
      have hs2 : 1 ≤ numSeconds (t2 - lr) := by
        rw [one_le_numSeconds_iff]
        omega
      rw [divClamp01_zero_den_eq_one_iff]
      exact_mod_cast hs2
    · have hbq : (0 : ℚ) < ((n : Int) : ℚ) := by
        exact_mod_cast hnpos
      rw [divClamp01_eq_one_iff_of_pos _ _ hbq] at h1
      have hs1 : n ≤ numSeconds (t1 - lr) := by
        exact_mod_cast h1
      have hd1 : 1000 ≤ t1 - lr := by
        rw [← one_le_numSeconds_iff]
        omega
      have hs2 : numSeconds (t1 - lr) ≤ numSeconds (t2 - lr) :=
        numSeconds_le_numSeconds (t1 - lr) (t2 - lr) (by omega) (by omega)
      rw [divClamp01_eq_one_iff_of_pos _ _ hbq]
      exact_mod_cast le_trans hs1 hs2

theorem C3_countup_latched_witness :
    Clock.maybe_reset_since_zero
        { timer := false, minute := false, day := false, hour := false,
          custom := none, countdown := some 5,
          last_reset := some 0, did_notify := false } 12345 =
      { timer := false, minute := false, day := false, hour := false,
        custom := none, countdown := some 5,
        last_reset := some 0, did_notify := false } :=
  (C3_countup_latched
    { timer := false, minute := false, day := false, hour := false,
      custom := none, countdown := some 5,
      last_reset := some 0, did_notify := false }
    (Int.ofNat 5) 0 rfl rfl).1 12345

/-- C4: for the Minute kind the anchor moves exactly under the guard (the
wall-clock second of now is 0 and at least one whole second has elapsed
since last_reset, in which case the new anchor is now), and within a single
zero-second window the reset fires at most once: with the anchor already
inside the window, any later tick in the same window leaves the clock
unchanged. -/
theorem C4_minute_reset_once (c : Clock) (lr now : Int)
    (hk : Clock.timebar_len c = some TimeBarLength.Minute)
    (hlr : c.last_reset = some lr) :
    ((Clock.maybe_reset_since_zero c now).last_reset ≠ c.last_reset →
      secondOf now = 0 ∧ 1 ≤ numSeconds (now - lr)) ∧
    (secondOf now = 0 → 1 ≤ numSeconds (now - lr) →
      (Clock.maybe_reset_since_zero c now).last_reset = some now) ∧
    (secondOf lr = 0 → secondOf now = 0 → lr ≤ now →
      lr / 60000 = now / 60000 →
      Clock.maybe_reset_since_zero c now = c) := by
  have hmr : Clock.maybe_reset_since_zero c now =
      if 1 ≤ numSeconds (now - lr) ∧ secondOf now = 0 then
        { c with last_reset := some now }
      else c := by
    simp [Clock.maybe_reset_since_zero, hk, hlr]
  refine ⟨?_, ?_, ?_⟩
  · intro hne
    by_cases hg : 1 ≤ numSeconds (now - lr) ∧ secondOf now = 0
    · exact ⟨hg.2, hg.1⟩
    · rw [hmr, if_neg hg] at hne
      exact absurd rfl hne
  · intro h0 h1
    rw [hmr, if_pos ⟨h1, h0⟩]
  · intro hlr0 hnow0 hle hsame
    have hng : ¬(1 ≤ numSeconds (now - lr) ∧ secondOf now = 0) := by
      intro hg
      have h1000 := (one_le_numSeconds_iff (now - lr)).mp hg.1
      unfold secondOf at hlr0 hnow0
      omega
    rw [hmr, if_neg hng]

theorem C4_minute_reset_once_witness :
    (Clock.maybe_reset_since_zero
        { timer := false, minute := true, day := false, hour := false,
          custom := none, countdown := none,
          last_reset := some 0, did_notify := false } 60000).last_reset =
      some 60000 :=
  (C4_minute_reset_once
    { timer := false, minute := true, day := false, hour := false,
      custom := none, countdown := none,
      last_reset := some 0, did_notify := false }
    0 60000 rfl rfl).2.1 (by decide) (by decide)

/-- Does the Rust pattern `Some(TimeBarLength::Countup(_))` match? -/
def TimeBarLength.isCountup : TimeBarLength → Bool
  | TimeBarLength.Countup _ => true
  | _ => false

theorem timebarw_notify_none (c : Clock) (r : FVal)
    (hl : Clock.timebar_len c = none) : timebarw_notify c r = (c, false) := by
  unfold timebarw_notify
  rw [hl]

theorem timebarw_notify_spec (c : Clock) (r : FVal) (len : TimeBarLength)
    (hl : Clock.timebar_len c = some len) :
    timebarw_notify c r =
      if (!c.did_notify && nearOne r && TimeBarLength.isCountup len) = true then
        ({ c with did_notify := true }, true)
      else (c, false) := by
  cases len <;>
    · unfold timebarw_notify
      rw [hl]
      by_cases hg : (!c.did_notify && nearOne r) = true <;>
        simp [hg, TimeBarLength.isCountup]

/-- C5: changed is true exactly when the date or the time string differs
between the two buffer slots; the stored ratios are not compared, so two
consecutive updates with identical strings but different ratios report no
change, while an update that alters the date string reports a change. -/
theorem C5_changed_compares_strings_only (u : UiData) (d t d2 t2 : String)
    (r1 r2 : Option FVal) (h : u.data_idx < 2) :
    (UiData.changed u = true ↔
      (u.fdateA 0 ≠ u.fdateA 1 ∨ u.ftimeA 0 ≠ u.ftimeA 1)) ∧
    UiData.changed (UiData.update (UiData.update u d t r1) d t r2) = false ∧
    (d ≠ d2 →
      UiData.changed (UiData.update (UiData.update u d t r1) d2 t2 r2) = true) := by
  obtain ⟨fd, ft, ra, idx⟩ := u
  have h2 : idx < 2 := h
  refine ⟨?_, ?_, ?_⟩
  · simp [UiData.changed]
  · interval_cases idx <;>
      simp [UiData.update, UiData.changed,
        show (0 : Nat) ^^^ 1 = 1 from rfl, show (1 : Nat) ^^^ 1 = 0 from rfl,
        Function.update]
  · intro hd
    interval_cases idx <;>
      simp [UiData.update, UiData.changed,
        show (0 : Nat) ^^^ 1 = 1 from rfl, show (1 : Nat) ^^^ 1 = 0 from rfl,
        Function.update, hd, Ne.symm hd]

theorem C5_changed_compares_strings_only_witness :
    UiData.changed (UiData.update (UiData.update
        { fdateA := fun _ => "", ftimeA := fun _ => "",
          ratioA := fun _ => none, data_idx := 0 }
        "2026-10-12" "13:00:00" (some (FVal.val 0)))
        "2026-10-12" "13:00:00" (some (FVal.val (1 / 2)))) = false :=
  (C5_changed_compares_strings_only
    { fdateA := fun _ => "", ftimeA := fun _ => "",
      ratioA := fun _ => none, data_idx := 0 }
    "2026-10-12" "13:00:00" "x" "y"
    (some (FVal.val 0)) (some (FVal.val (1 / 2))) (by norm_num)).2.1

/-- C6: the notification fires exactly when the kind is Countup, did_notify
is false and the ratio is within 1e-6 of 1; firing latches did_notify to
true, an already-notified clock is left unchanged and never fires again,
and neither the reset logic nor setup ever clears did_notify, so the
side effect happens at most once per run and only for Countup. -/
theorem C6_notify_exactly_once (c : Clock) (r : FVal) :
    ((timebarw_notify c r).2 = true ↔
      ((∃ n : Int, Clock.timebar_len c = some (TimeBarLength.Countup n)) ∧
        c.did_notify = false ∧ nearOne r = true)) ∧
    ((timebarw_notify c r).2 = true →
      (timebarw_notify c r).1.did_notify = true) ∧
    (c.did_notify = true → timebarw_notify c r = (c, false)) ∧
    (∀ now : Int,
      (Clock.maybe_reset_since_zero c now).did_notify = c.did_notify) ∧
    (∀ now : Int,
      (Clock.setup_last_reset c now).did_notify = c.did_notify) := by
  have hpres : ∀ now : Int,
      (Clock.maybe_reset_since_zero c now).did_notify = c.did_notify := by
    intro now
    unfold Clock.maybe_reset_since_zero
    cases hl : Clock.timebar_len c with
    | none => rfl
    | some len =>
      cases hr : c.last_reset with
      | none => rfl
      | some lr => cases len <;> simp <;> split <;> rfl
  have hsetup : ∀ now : Int,
      (Clock.setup_last_reset c now).did_notify = c.did_notify := by
    intro now
    unfold Clock.setup_last_reset
    cases hl : Clock.timebar_len c with
    | none => rfl
    | some len => cases len <;> rfl
  refine ⟨?_, ?_, ?_, hpres, hsetup⟩
  · cases hl : Clock.timebar_len c with
    | none => simp [timebarw_notify_none c r hl]
    | some len =>
      rw [timebarw_notify_spec c r len hl]
      by_cases hg : (!c.did_notify && nearOne r &&
          TimeBarLength.isCountup len) = true
      · rw [if_pos hg]
        simp only [Bool.and_eq_true, Bool.not_eq_true'] at hg
        obtain ⟨⟨hdn, hnr⟩, hcu⟩ := hg
        cases len <;> simp_all [TimeBarLength.isCountup]
      · rw [if_neg hg]
        simp only [Bool.and_eq_true, Bool.not_eq_true'] at hg
        constructor
        · intro hfalse
          exact absurd hfalse (by simp)
        · rintro ⟨⟨n, hn⟩, hdn, hnr⟩
          have hlen : len = TimeBarLength.Countup n := Option.some.inj hn
          subst hlen
          exact absurd ⟨⟨hdn, hnr⟩, rfl⟩ hg
  · intro hfired
    cases hl : Clock.timebar_len c with
    | none =>
      rw [timebarw_notify_none c r hl] at hfired
      simp at hfired
    | some len =>
      rw [timebarw_notify_spec c r len hl] at hfired ⊢
      by_cases hg : (!c.did_notify && nearOne r &&
          TimeBarLength.isCountup len) = true
      · rw [if_pos hg]
      · rw [if_neg hg] at hfired
        simp at hfired
  · intro hdn
    cases hl : Clock.timebar_len c with
    | none => exact timebarw_notify_none c r hl
    | some len =>
      rw [timebarw_notify_spec c r len hl]
      have hg : (!c.did_notify && nearOne r &&
          TimeBarLength.isCountup len) = false := by
        simp [hdn]
      rw [hg]
      simp

theorem C6_notify_exactly_once_witness :
    (timebarw_notify
        { timer := false, minute := false, day := false, hour := false,
          custom := none, countdown := some 5,
          last_reset := some 0, did_notify := false } (FVal.val 1)).2 = true :=
  (C6_notify_exactly_once
    { timer := false, minute := false, day := false, hour := false,
      custom := none, countdown := some 5,
      last_reset := some 0, did_notify := false } (FVal.val 1)).1.mpr
    ⟨⟨Int.ofNat 5, rfl⟩, rfl, by norm_num [nearOne]⟩

/-- C8: the code does not fully truncate the anchors.  For the Hour kind
setup only zeroes the minute field (with_minute(0)), keeping the seconds:
at 00:00:37 the anchor is 00:00:37 with second field 37, not 0.  For the
Day kind setup only zeroes the hour field (with_hour(0)), keeping minutes
and seconds: at 05:01:30 the anchor is 00:01:30 with minute 1 and second
30, not 0.  This contradicts the claimed minutes=0/seconds=0 truncation. -/
theorem C8_setup_anchor_not_truncated :
    ((Clock.setup (Clock.fromArgs false false false true none none)
        37000).last_reset = some 37000 ∧
      secondOf 37000 = 37 ∧ secondOf 37000 ≠ 0) ∧
    ((Clock.setup (Clock.fromArgs false false true false none none)
        18090000).last_reset = some 90000 ∧
      minuteOf 90000 = 1 ∧ secondOf 90000 = 30 ∧
      (minuteOf 90000 ≠ 0 ∧ secondOf 90000 ≠ 0)) := by
  decide

/-- C9 counterexample: with no duration kind selected, setup completes and
last_reset is still none, refuting "always Some after setup completes, for
every configuration". -/
theorem C9_anchor_after_setup_cex :
    (Clock.setup (Clock.fromArgs false false false false none none)
        0).last_reset = none := by
  decide

/-- C9 amended: last_reset is none straight out of argument parsing, and
after setup it is some exactly when a duration kind is selected (with no
kind it remains none); the notification gate never modifies it. -/
theorem C9_anchor_after_setup_amended (timer minute day hour : Bool)
    (custom countdown : Option Nat) (now : Int) :
    (Clock.fromArgs timer minute day hour custom countdown).last_reset =
      none ∧
    ((Clock.setup (Clock.fromArgs timer minute day hour custom countdown)
        now).last_reset.isSome =
      (Clock.timebar_len
        (Clock.fromArgs timer minute day hour custom countdown)).isSome) ∧
    (∀ c : Clock, ∀ r : FVal,
      (timebarw_notify c r).1.last_reset = c.last_reset) := by
  refine ⟨rfl, ?_, ?_⟩
  · unfold Clock.setup Clock.setup_last_reset
    cases hl : Clock.timebar_len
        (Clock.fromArgs timer minute day hour custom countdown) with
    | none => simp [Clock.fromArgs]
    | some len => cases len <;> simp
  · intro c r
    cases hl : Clock.timebar_len c with
    | none => rw [timebarw_notify_none c r hl]
    | some len =>
      rw [timebarw_notify_spec c r len hl]
      by_cases hg : (!c.did_notify && nearOne r &&
          TimeBarLength.isCountup len) = true
      · rw [if_pos hg]
      · rw [if_neg hg]

/-- C10: update stores the given values in the freshly toggled slot, the
accessors then return exactly those values, the index stays in {0, 1} and
is XOR-toggled by each call, and the other slot still holds the previous
current values. -/
theorem C10_update_then_accessors (u : UiData) (d t : String)
    (r : Option FVal) (h : u.data_idx < 2) :
    UiData.fdate (UiData.update u d t r) = d ∧
    UiData.ftime (UiData.update u d t r) = t ∧
    UiData.timebar_ratio (UiData.update u d t r) = r ∧
    (UiData.update u d t r).data_idx = u.data_idx ^^^ 1 ∧
    (UiData.update u d t r).data_idx < 2 ∧
    (UiData.update u d t r).data_idx ≠ u.data_idx ∧
    (UiData.update u d t r).fdateA u.data_idx = UiData.fdate u ∧
    (UiData.update u d t r).ftimeA u.data_idx = UiData.ftime u ∧
    (UiData.update u d t r).ratioA u.data_idx = UiData.timebar_ratio u := by
  obtain ⟨fd, ft, ra, idx⟩ := u
  have h2 : idx < 2 := h
  interval_cases idx <;>
    simp [UiData.update, UiData.fdate, UiData.ftime, UiData.timebar_ratio,
      show (0 : Nat) ^^^ 1 = 1 from rfl, show (1 : Nat) ^^^ 1 = 0 from rfl,
      Function.update]

theorem C10_update_then_accessors_witness :
    UiData.fdate (UiData.update
        { fdateA := fun _ => "", ftimeA := fun _ => "",
          ratioA := fun _ => none, data_idx := 0 }
        "2026-10-12" "13:00:00" none) = "2026-10-12" :=
  (C10_update_then_accessors
    { fdateA := fun _ => "", ftimeA := fun _ => "",
      ratioA := fun _ => none, data_idx := 0 }
    "2026-10-12" "13:00:00" none (by norm_num)).1
